import Mathlib

/-!
Verification development for the smoldot light-client core: the GRANDPA
commit decoder (`finality/grandpa/commit/decode.rs`), the justification
verifier (`finality/justification/verify.rs`) and the transaction-validity
driver (`transactions/validate.rs`), shallowly embedded over byte lists.
-/

set_option maxRecDepth 10000

namespace Smoldot

/-- Bytes are modelled as lists of naturals; every value fed to the decoders
in the claims is below 256. -/
abbrev Bytes := List Nat

/-! ## Byte-level primitives

`nom::number::streaming::le_u64`, `nom::bytes::streaming::take` and the
helpers of `util.rs` (`nom_scale_compact_usize`,
`nom_varsize_number_decode_u64`, `nom_bool_decode`), which the spec treats as
assumed primitives. Every decoder maps an input byte list to `none` (failure)
or `some (value, remainder)`. -/

/-- Little-endian bytes of `n`, `k` bytes wide (`u64::to_le_bytes` is
`leBytes 8`). -/
def leBytes : Nat → Nat → Bytes
  | 0, _ => []
  | k + 1, n => (n % 256) :: leBytes k (n / 256)

/-- Value of a little-endian byte list. -/
def leValue : Bytes → Nat
  | [] => 0
  | b :: rest => b + 256 * leValue rest

/-- `nom::bytes::streaming::take n`: split off exactly `n` bytes. -/
def takeBytes : Nat → Bytes → Option (Bytes × Bytes)
  | 0, bs => some ([], bs)
  | _ + 1, [] => none
  | k + 1, b :: bs =>
    match takeBytes k bs with
    | some (xs, rest) => some (b :: xs, rest)
    | none => none

/-- `nom::number::streaming::le_u64`: 8 little-endian bytes. -/
def leU64 (bs : Bytes) : Option (Nat × Bytes) :=
  match takeBytes 8 bs with
  | some (xs, rest) => some (leValue xs, rest)
  | none => none

/-- Modelled from the spec: `util::nom_varsize_number_decode_u64` (`util.rs`
is not under `src/`) — take exactly `n` bytes, interpret little-endian,
zero-extend to 64 bits. -/
def varsizeU64 (n : Nat) (bs : Bytes) : Option (Nat × Bytes) :=
  match takeBytes n bs with
  | some (xs, rest) => some (leValue xs, rest)
  | none => none

/-- Modelled from the spec: `util::nom_scale_compact_usize` (`util.rs` is not
under `src/`) — the standard SCALE compact-integer decoder. The low two bits
of the first byte select the mode: single byte, two bytes, four bytes, or a
big integer whose byte count is carried in the remaining bits. -/
def compactUsize (bs : Bytes) : Option (Nat × Bytes) :=
  match bs with
  | [] => none
  | b :: rest =>
    match b % 4 with
    | 0 => some (b / 4, rest)
    | 1 =>
      match takeBytes 1 rest with
      | some (xs, r) => some ((b + 256 * leValue xs) / 4, r)
      | none => none
    | 2 =>
      match takeBytes 3 rest with
      | some (xs, r) => some ((b + 256 * leValue xs) / 4, r)
      | none => none
    | _ =>
      match takeBytes (b / 4 + 4) rest with
      | some (xs, r) => some (leValue xs, r)
      | none => none

/-- Modelled from the spec: `util::nom_bool_decode` — byte `0` is `false`,
byte `1` is `true`, anything else fails. -/
def nomBoolDecode (bs : Bytes) : Option (Bool × Bytes) :=
  match bs with
  | 0 :: rest => some (false, rest)
  | 1 :: rest => some (true, rest)
  | _ => none

/-- `nom::multi::many_m_n n n p`: exactly `n` repetitions of `p`. -/
def countP {α : Type} (p : Bytes → Option (α × Bytes)) :
    Nat → Bytes → Option (List α × Bytes)
  | 0, bs => some ([], bs)
  | k + 1, bs =>
    match p bs with
    | some (a, rest) =>
      match countP p k rest with
      | some (as, rest2) => some (a :: as, rest2)
      | none => none
    | none => none

/-! ## GRANDPA commit decoder (`finality/grandpa/commit/decode.rs`) -/

/-- `UnsignedPrecommitRef`. -/
structure UnsignedPrecommitRef where
  target_hash : Bytes
  target_number : Nat
deriving DecidableEq

/-- `CompactCommitRef`: `auth_data` is the list of (signature, public key)
pairs. -/
structure CompactCommitRef where
  target_hash : Bytes
  target_number : Nat
  precommits : List UnsignedPrecommitRef
  auth_data : List (Bytes × Bytes)
deriving DecidableEq

/-- `CommitMessageRef`. -/
structure CommitMessageRef where
  round_number : Nat
  set_id : Nat
  message : CompactCommitRef
deriving DecidableEq

/-- `unsigned_precommit`: 32-byte hash then a variable-width block number. -/
def unsigned_precommit (block_number_bytes : Nat) (bs : Bytes) :
    Option (UnsignedPrecommitRef × Bytes) :=
  match takeBytes 32 bs with
  | some (h, r1) =>
    match varsizeU64 block_number_bytes r1 with
    | some (n, r2) => some (⟨h, n⟩, r2)
    | none => none
  | none => none

/-- One `auth_data` entry: a 64-byte signature then a 32-byte public key. -/
def auth_data_entry (bs : Bytes) : Option ((Bytes × Bytes) × Bytes) :=
  match takeBytes 64 bs with
  | some (sig, r1) =>
    match takeBytes 32 r1 with
    | some (pk, r2) => some ((sig, pk), r2)
    | none => none
  | none => none

/-- `compact_commit`: target hash, target number, a compact-length-prefixed
list of precommits, then an independently compact-length-prefixed list of
`auth_data` entries. -/
def compact_commit (block_number_bytes : Nat) (bs : Bytes) :
    Option (CompactCommitRef × Bytes) :=
  match takeBytes 32 bs with
  | some (h, r1) =>
    match varsizeU64 block_number_bytes r1 with
    | some (n, r2) =>
      match compactUsize r2 with
      | some (numPre, r3) =>
        match countP (unsigned_precommit block_number_bytes) numPre r3 with
        | some (pres, r4) =>
          match compactUsize r4 with
          | some (numAuth, r5) =>
            match countP auth_data_entry numAuth r5 with
            | some (auths, r6) => some (⟨h, n, pres, auths⟩, r6)
            | none => none
          | none => none
        | none => none
      | none => none
    | none => none
  | none => none

/-- `commit_message`: round number, set id, compact commit. -/
def commit_message (block_number_bytes : Nat) (bs : Bytes) :
    Option (CommitMessageRef × Bytes) :=
  match leU64 bs with
  | some (round, r1) =>
    match leU64 r1 with
    | some (setId, r2) =>
      match compact_commit block_number_bytes r2 with
      | some (msg, r3) => some (⟨round, setId, msg⟩, r3)
      | none => none
    | none => none
  | none => none

/-- `decode_grandpa_commit`: `all_consuming(commit_message)` — the whole
input must be consumed. -/
def decode_grandpa_commit (scale_encoded : Bytes) (block_number_bytes : Nat) :
    Except Unit CommitMessageRef :=
  match commit_message block_number_bytes scale_encoded with
  | some (commit, []) => .ok commit
  | _ => .error ()

/-- `decode_partial_grandpa_commit`: same parser, but the unconsumed
remainder is returned instead of being an error. -/
def decode_partial_grandpa_commit (scale_encoded : Bytes)
    (block_number_bytes : Nat) : Except Unit (CommitMessageRef × Bytes) :=
  match commit_message block_number_bytes scale_encoded with
  | some (commit, remainder) => .ok (commit, remainder)
  | none => .error ()

/-! ## Justification verifier (`finality/justification/verify.rs`)

The Ed25519 batch verifier (`ed25519_zebra::batch::Verifier`) and the
ChaCha20 PRNG are external crates; the batch verification is abstracted as a
deterministic function of the randomness seed and the queued items, which is
exactly the determinism guarantee the crate provides. The `hashbrown`
authority table is a set of byte strings; the randomized hash seed only
guards against collision attacks and does not influence lookups, so the
table is embedded as the `Finset` of distinct keys of `authorities_list`. -/

/-- One precommit of a decoded justification, as consumed by `verify`. -/
structure Precommit where
  target_hash : Bytes
  target_number : Nat
  authority_public_key : Bytes
  signature : Bytes
deriving DecidableEq

/-- The part of `GrandpaJustificationRef` that `verify` reads
(`votes_ancestries` is acknowledged as unused by the source). -/
structure Justification where
  round : Nat
  precommits : List Precommit
deriving DecidableEq

/-- `verify::Config`. -/
structure VerifyConfig where
  justification : Justification
  block_number_bytes : Nat
  authorities_set_id : Nat
  authorities_list : List Bytes
  randomness_seed : Bytes
deriving DecidableEq

/-- `verify::Error`. -/
inductive VerifyError where
  | BadPublicKey
  | BadSignature
  | DuplicateSignature (pubkey : Bytes)
  | NotAuthority (pubkey : Bytes)
  | NotEnoughSignatures
deriving DecidableEq

/-- An item queued into the Ed25519 batch verifier:
(public key, signature, message). -/
abbrev BatchItem := Bytes × Bytes × Bytes

/-- The signing preimage built for one precommit inside `verify`: the byte
`1`, the 32-byte target hash, the little-endian low bytes of the target
number truncated to `min 8 block_number_bytes` and padded with zeros up to
`block_number_bytes`, the 8-byte LE round number, the 8-byte LE authorities
set id. -/
def precommitMessage (block_number_bytes round authorities_set_id : Nat)
    (target_hash : Bytes) (target_number : Nat) : Bytes :=
  1 :: (target_hash
    ++ ((leBytes 8 target_number).take (min 8 block_number_bytes)
        ++ List.replicate (block_number_bytes - 8) 0)
    ++ leBytes 8 round ++ leBytes 8 authorities_set_id)

/-- The batch item queued for one precommit. -/
def batchItemOf (block_number_bytes round authorities_set_id : Nat)
    (p : Precommit) : BatchItem :=
  (p.authority_public_key, p.signature,
    precommitMessage block_number_bytes round authorities_set_id
      p.target_hash p.target_number)

/-- The per-precommit loop of `verify`: walk the precommits in order,
looking each signer up in the authority table; an unknown signer stops the
loop with `NotAuthority`, a signer already seen stops it with
`DuplicateSignature`, otherwise the signer is marked seen and the batch item
is queued. Returns the queued items together with the error, if any. -/
def verifyLoop (block_number_bytes round authorities_set_id : Nat)
    (auth : Finset Bytes) :
    List Precommit → Finset Bytes → List BatchItem →
    List BatchItem × Option VerifyError
  | [], _, batch => (batch, none)
  | p :: rest, seen, batch =>
    if p.authority_public_key ∈ auth then
      if p.authority_public_key ∈ seen then
        (batch, some (.DuplicateSignature p.authority_public_key))
      else
        verifyLoop block_number_bytes round authorities_set_id auth rest
          (insert p.authority_public_key seen)
          (batch ++ [batchItemOf block_number_bytes round authorities_set_id p])
    else (batch, some (.NotAuthority p.authority_public_key))

/-- `verify`: quorum check against the deduplicated authority table, then
the per-precommit loop, then the batched signature verification. `batchOk`
is the abstract Ed25519 batch verifier, a deterministic function of the
randomness seed and the queued items. -/
def verify (batchOk : Bytes → List BatchItem → Bool) (cfg : VerifyConfig) :
    Except VerifyError Unit :=
  if cfg.justification.precommits.length <
      cfg.authorities_list.toFinset.card * 2 / 3 + 1 then
    .error .NotEnoughSignatures
  else
    match verifyLoop cfg.block_number_bytes cfg.justification.round
        cfg.authorities_set_id cfg.authorities_list.toFinset
        cfg.justification.precommits ∅ [] with
    | (_, some e) => .error e
    | (batch, none) =>
      if batchOk cfg.randomness_seed batch then .ok () else .error .BadSignature

/-! ## Transaction validity (`transactions/validate.rs`) -/

/-- `ValidTransaction`; `longevity` is `NonZeroU64` in the source, the
decoder rejects a zero value. -/
structure ValidTransaction where
  priority : Nat
  requires : List Bytes
  provides : List Bytes
  longevity : Nat
  propagate : Bool
deriving DecidableEq

/-- `InvalidTransaction`. -/
inductive InvalidTransaction where
  | Call
  | Payment
  | Future
  | Stale
  | BadProof
  | AncientBirthBlock
  | ExhaustsResources
  | Custom (n : Nat)
  | BadMandatory
  | MandatoryDispatch
deriving DecidableEq

/-- `UnknownTransaction`. -/
inductive UnknownTransaction where
  | CannotLookup
  | NoUnsignedValidator
  | Custom (n : Nat)
deriving DecidableEq

/-- `TransactionValidityError`. -/
inductive TransactionValidityError where
  | Invalid (e : InvalidTransaction)
  | Unknown (e : UnknownTransaction)
deriving DecidableEq

/-- `tags`: a compact count, then that many compact-length-prefixed byte
strings. -/
def tags (bs : Bytes) : Option (List Bytes × Bytes) :=
  match compactUsize bs with
  | some (n, r1) =>
    countP (fun b =>
      match compactUsize b with
      | some (len, r) =>
        match takeBytes len r with
        | some (tag, r2) => some (tag, r2)
        | none => none
      | none => none) n r1
  | none => none

/-- `valid_transaction`: little-endian priority, requires tags, provides
tags, nonzero little-endian longevity, boolean propagate flag. -/
def valid_transaction (bs : Bytes) : Option (ValidTransaction × Bytes) :=
  match leU64 bs with
  | some (priority, r1) =>
    match tags r1 with
    | some (req, r2) =>
      match tags r2 with
      | some (prov, r3) =>
        match leU64 r3 with
        | some (longevity, r4) =>
          if longevity = 0 then none
          else
            match nomBoolDecode r4 with
            | some (propagate, r5) =>
              some (⟨priority, req, prov, longevity, propagate⟩, r5)
            | none => none
        | none => none
      | none => none
    | none => none
  | none => none

/-- `invalid_transaction`: a one-byte tag in `0..=9`; tag `7` (`Custom`)
takes one trailing byte. -/
def invalid_transaction (bs : Bytes) : Option (InvalidTransaction × Bytes) :=
  match bs with
  | 0 :: r => some (.Call, r)
  | 1 :: r => some (.Payment, r)
  | 2 :: r => some (.Future, r)
  | 3 :: r => some (.Stale, r)
  | 4 :: r => some (.BadProof, r)
  | 5 :: r => some (.AncientBirthBlock, r)
  | 6 :: r => some (.ExhaustsResources, r)
  | 7 :: n :: r => some (.Custom n, r)
  | 8 :: r => some (.BadMandatory, r)
  | 9 :: r => some (.MandatoryDispatch, r)
  | _ => none

/-- `unknown_transaction`: a one-byte tag in `0..=2`; tag `2` (`Custom`)
takes one trailing byte. -/
def unknown_transaction (bs : Bytes) : Option (UnknownTransaction × Bytes) :=
  match bs with
  | 0 :: r => some (.CannotLookup, r)
  | 1 :: r => some (.NoUnsignedValidator, r)
  | 2 :: n :: r => some (.Custom n, r)
  | _ => none

/-- `transaction_validity_error`: byte `0` then an invalid kind, or byte `1`
then an unknown kind. -/
def transaction_validity_error (bs : Bytes) :
    Option (TransactionValidityError × Bytes) :=
  match bs with
  | 0 :: r =>
    match invalid_transaction r with
    | some (e, r2) => some (.Invalid e, r2)
    | none => none
  | 1 :: r =>
    match unknown_transaction r with
    | some (e, r2) => some (.Unknown e, r2)
    | none => none
  | _ => none

/-- `transaction_validity`: byte `0` then a `ValidTransaction` body, or byte
`1` then a validity error. -/
def transaction_validity (bs : Bytes) :
    Option (Except TransactionValidityError ValidTransaction × Bytes) :=
  match bs with
  | 0 :: r =>
    match valid_transaction r with
    | some (v, r2) => some (.ok v, r2)
    | none => none
  | 1 :: r =>
    match transaction_validity_error r with
    | some (e, r2) => some (.error e, r2)
    | none => none
  | _ => none

/-- `decode_validate_transaction_return_value`:
`all_consuming(transaction_validity)`. -/
def decode_validate_transaction_return_value (scale_encoded : Bytes) :
    Except Unit (Except TransactionValidityError ValidTransaction) :=
  match transaction_validity scale_encoded with
  | some (data, []) => .ok data
  | _ => .error ()

/-! ### The driver (`validate_transaction`, `Query::from_step1`,
`Query::from_step2`)

The wasm host VM (`executor/runtime_host.rs`) and the header codec
(`header.rs`) are code of this repository outside `src/`. Modelled from the
spec: the VM collaborator is abstracted as a function from a runtime
invocation to a completed outcome (output bytes or an error detail), the
header codec as an abstract decoded block number and an abstract hash
function; the driver records every runtime invocation it issues, in order,
so that the dispatch behaviour is observable. -/

/-- `TransactionSource`. -/
inductive TransactionSource where
  | inBlock
  | localSource
  | externalSource
deriving DecidableEq

/-- The partially-initialized header handed to `Core_initialize_block`. -/
structure HeaderModel where
  parent_hash : Bytes
  number : Nat
  extrinsics_root : Bytes
  state_root : Bytes
  digest : List Bytes
deriving DecidableEq

/-- The parameter of a runtime invocation issued by the driver. -/
inductive CallParam where
  | initHeader (h : HeaderModel)
  | validateV2 (source : TransactionSource) (tx : Bytes)
  | validateV3 (source : TransactionSource) (tx : Bytes) (blockHash : Bytes)
deriving DecidableEq

/-- One `runtime_host::run` invocation: entry-point name and parameter. -/
structure RunCall where
  function_to_call : String
  parameter : CallParam
deriving DecidableEq

/-- `VALIDATION_FUNCTION_NAME`. -/
def VALIDATION_FUNCTION_NAME : String :=
  "TaggedTransactionQueue_validate_transaction"

/-- `validate_transaction::Error` (driver errors). -/
inductive TxError where
  | InvalidHeader
  | UnknownApiVersion
  | WasmVmReadWrite (detail : Nat)
  | WasmVmReadOnly (detail : Nat)
  | OutputDecodeError
  | EmptyProvidedTags
  | ForbiddenHostCall
deriving DecidableEq

/-- The completed outcome of one runtime invocation: output bytes or an
error detail. Modelled from the spec: the resumable VM collaborator,
restricted to runs the caller has driven to completion. -/
abbrev VmFinish := Except Nat Bytes

/-- The terminal result carried by `Query::Finished`. -/
abbrev TxResult := Except TxError (Except TransactionValidityError ValidTransaction)

/-- The `Finished` arms of `Query::from_step2` (stage 2, the validation
call): on success decode the return value, rejecting a decoded
`ValidTransaction` whose `provides` list is empty; on VM failure surface
`WasmVmReadOnly`. -/
def fromStep2 (outcome : VmFinish) : TxResult :=
  match outcome with
  | .ok output =>
    match decode_validate_transaction_return_value output with
    | .error _ => .error .OutputDecodeError
    | .ok res =>
      match res with
      | .ok v =>
        if v.provides = [] then .error .EmptyProvidedTags else .ok (.ok v)
      | .error e => .ok (.error e)
  | .error d => .error (.WasmVmReadOnly d)

/-- The `Finished` arms of `Query::from_step1` (stage 1,
`Core_initialize_block`): an empty output launches stage 2 with the v2
parameter encoding, a non-empty output is `OutputDecodeError`, a VM failure
is `WasmVmReadWrite`. Also returns the runtime invocations issued. -/
def fromStep1 (vm : RunCall → VmFinish) (outcome : VmFinish)
    (source : TransactionSource) (tx : Bytes) : TxResult × List RunCall :=
  match outcome with
  | .ok output =>
    if output = [] then
      let call2 : RunCall := ⟨VALIDATION_FUNCTION_NAME, .validateV2 source tx⟩
      (fromStep2 (vm call2), [call2])
    else (.error .OutputDecodeError, [])
  | .error d => (.error (.WasmVmReadWrite d), [])

/-- The configuration of `validate_transaction`; `apiVersion` is the version
the runtime declares for the `TaggedTransactionQueue` API (`None` when the
API is absent). -/
structure TxConfig where
  apiVersion : Option Nat
  scale_encoded_header : Bytes
  block_number_bytes : Nat
  scale_encoded_transaction : Bytes
  source : TransactionSource
  max_log_level : Nat
deriving DecidableEq

/-- `validate_transaction`: dispatch on the declared
`TaggedTransactionQueue` API version. Version 2 decodes the supplied header
and first invokes `Core_initialize_block` with a partially-initialized
header; version 3 invokes the validation entry point directly; any other
version fails with `UnknownApiVersion` without invoking anything.
`decodeHeaderNumber` and `headerHash` abstract the header codec; the second
component of the result is the ordered list of issued runtime
invocations. -/
def validate_transaction (decodeHeaderNumber : Bytes → Nat → Option Nat)
    (headerHash : Bytes → Bytes) (vm : RunCall → VmFinish) (cfg : TxConfig) :
    TxResult × List RunCall :=
  match cfg.apiVersion with
  | some 2 =>
    match decodeHeaderNumber cfg.scale_encoded_header cfg.block_number_bytes with
    | none => (.error .InvalidHeader, [])
    | some n =>
      let initCall : RunCall := ⟨"Core_initialize_block",
        .initHeader
          { parent_hash := headerHash cfg.scale_encoded_header
            number := n + 1
            extrinsics_root := List.replicate 32 0
            state_root := List.replicate 32 0
            digest := [] }⟩
      let step1 := fromStep1 vm (vm initCall) cfg.source
        cfg.scale_encoded_transaction
      (step1.1, initCall :: step1.2)
  | some 3 =>
    let call : RunCall := ⟨VALIDATION_FUNCTION_NAME,
      .validateV3 cfg.source cfg.scale_encoded_transaction
        (headerHash cfg.scale_encoded_header)⟩
    (fromStep2 (vm call), [call])
  | _ => (.error .UnknownApiVersion, [])

/-- The commit fixture of the source test `basic_decode_commit` (978 bytes). -/
def commitFixture : Bytes := [
   85, 14, 0, 0, 0, 0, 0, 0, 162, 13, 0, 0, 0, 0, 0, 0, 182, 68, 115, 35, 15,
   201, 152, 195, 12, 181, 59, 244, 231, 124, 34, 248, 98, 253, 4, 180, 158,
   70, 161, 84, 76, 118, 151, 68, 101, 104, 187, 82, 49, 231, 77, 0, 28, 182,
   68, 115, 35, 15, 201, 152, 195, 12, 181, 59, 244, 231, 124, 34, 248, 98,
   253, 4, 180, 158, 70, 161, 84, 76, 118, 151, 68, 101, 104, 187, 82, 49,
   231, 77, 0, 182, 68, 115, 35, 15, 201, 152, 195, 12, 181, 59, 244, 231,
   124, 34, 248, 98, 253, 4, 180, 158, 70, 161, 84, 76, 118, 151, 68, 101,
   104, 187, 82, 49, 231, 77, 0, 182, 68, 115, 35, 15, 201, 152, 195, 12, 181,
   59, 244, 231, 124, 34, 248, 98, 253, 4, 180, 158, 70, 161, 84, 76, 118,
   151, 68, 101, 104, 187, 82, 49, 231, 77, 0, 182, 68, 115, 35, 15, 201, 152,
   195, 12, 181, 59, 244, 231, 124, 34, 248, 98, 253, 4, 180, 158, 70, 161,
   84, 76, 118, 151, 68, 101, 104, 187, 82, 49, 231, 77, 0, 182, 68, 115, 35,
   15, 201, 152, 195, 12, 181, 59, 244, 231, 124, 34, 248, 98, 253, 4, 180,
   158, 70, 161, 84, 76, 118, 151, 68, 101, 104, 187, 82, 49, 231, 77, 0, 182,
   68, 115, 35, 15, 201, 152, 195, 12, 181, 59, 244, 231, 124, 34, 248, 98,
   253, 4, 180, 158, 70, 161, 84, 76, 118, 151, 68, 101, 104, 187, 82, 49,
   231, 77, 0, 182, 68, 115, 35, 15, 201, 152, 195, 12, 181, 59, 244, 231,
   124, 34, 248, 98, 253, 4, 180, 158, 70, 161, 84, 76, 118, 151, 68, 101,
   104, 187, 82, 49, 231, 77, 0, 28, 189, 185, 216, 33, 163, 12, 201, 104,
   162, 255, 11, 241, 156, 90, 244, 205, 251, 44, 45, 139, 129, 117, 178, 85,
   129, 78, 58, 255, 76, 232, 199, 85, 236, 30, 227, 87, 50, 34, 22, 27, 241,
   6, 33, 137, 55, 5, 190, 36, 122, 61, 112, 51, 99, 34, 119, 46, 185, 156,
   188, 133, 140, 103, 33, 10, 45, 154, 173, 12, 30, 12, 25, 95, 195, 198,
   235, 98, 29, 248, 44, 121, 73, 203, 132, 51, 196, 138, 65, 42, 3, 49, 169,
   182, 129, 146, 242, 193, 228, 217, 26, 9, 233, 239, 30, 213, 103, 10, 33,
   27, 44, 13, 178, 236, 216, 167, 190, 9, 123, 151, 143, 1, 199, 58, 77, 121,
   122, 215, 22, 19, 238, 190, 216, 8, 62, 6, 216, 37, 197, 124, 141, 51, 196,
   205, 205, 193, 24, 86, 246, 60, 16, 139, 66, 51, 93, 168, 159, 147, 77, 90,
   91, 8, 64, 14, 252, 119, 77, 211, 141, 23, 18, 115, 222, 3, 2, 22, 42, 105,
   85, 176, 71, 232, 230, 141, 12, 9, 124, 205, 194, 191, 90, 47, 202, 233,
   218, 161, 80, 55, 8, 134, 223, 202, 4, 137, 45, 10, 71, 90, 162, 252, 99,
   19, 252, 17, 175, 5, 75, 208, 81, 0, 96, 218, 5, 89, 250, 183, 161, 188,
   227, 62, 107, 34, 63, 155, 28, 176, 141, 174, 113, 162, 229, 148, 55, 39,
   65, 36, 97, 159, 198, 238, 222, 34, 76, 187, 40, 19, 109, 1, 67, 146, 40,
   75, 194, 208, 80, 208, 221, 175, 151, 239, 239, 127, 65, 39, 237, 145, 130,
   36, 154, 135, 68, 105, 52, 102, 49, 62, 137, 34, 187, 159, 55, 157, 88,
   195, 49, 116, 72, 11, 37, 132, 176, 74, 69, 60, 157, 67, 36, 156, 165, 71,
   164, 86, 220, 240, 241, 13, 40, 125, 79, 147, 27, 56, 254, 198, 231, 108,
   187, 214, 187, 98, 229, 123, 116, 160, 126, 192, 98, 132, 247, 206, 70,
   228, 175, 152, 217, 252, 4, 109, 98, 24, 90, 117, 184, 11, 107, 32, 186,
   217, 155, 44, 253, 198, 120, 175, 170, 229, 66, 122, 141, 158, 75, 68, 108,
   104, 182, 223, 91, 126, 210, 38, 84, 143, 10, 142, 225, 77, 169, 12, 215,
   222, 158, 85, 4, 111, 196, 47, 56, 147, 93, 1, 202, 247, 137, 115, 30, 127,
   94, 191, 31, 223, 162, 16, 73, 219, 118, 52, 40, 255, 191, 183, 70, 132,
   115, 91, 214, 191, 156, 189, 203, 208, 152, 165, 115, 64, 123, 209, 153,
   80, 44, 134, 143, 188, 140, 168, 162, 134, 178, 192, 122, 10, 137, 41, 133,
   127, 72, 223, 16, 65, 170, 114, 53, 173, 180, 59, 208, 190, 54, 96, 123,
   199, 137, 214, 115, 240, 73, 87, 253, 137, 81, 36, 66, 175, 76, 40, 52,
   216, 110, 234, 219, 158, 208, 142, 85, 168, 43, 164, 19, 154, 21, 125, 174,
   153, 165, 45, 54, 100, 36, 196, 46, 95, 64, 192, 178, 156, 16, 112, 5, 237,
   207, 113, 132, 125, 148, 34, 132, 105, 148, 216, 148, 182, 33, 74, 215,
   161, 252, 44, 24, 67, 77, 87, 6, 94, 109, 38, 64, 10, 195, 28, 194, 169,
   175, 7, 98, 210, 151, 4, 221, 136, 161, 204, 171, 251, 101, 63, 21, 245,
   84, 189, 77, 59, 75, 136, 44, 17, 217, 119, 206, 191, 191, 137, 127, 81,
   55, 208, 225, 33, 209, 59, 83, 121, 234, 160, 191, 38, 82, 1, 102, 178,
   140, 58, 20, 131, 206, 37, 148, 106, 135, 149, 74, 57, 27, 84, 215, 0, 47,
   68, 1, 8, 139, 183, 125, 169, 4, 165, 168, 86, 218, 178, 95, 157, 185, 64,
   45, 211, 221, 151, 205, 240, 69, 133, 200, 15, 213, 170, 162, 127, 93, 224,
   36, 86, 116, 44, 42, 22, 255, 144, 193, 35, 175, 145, 62, 184, 67, 143,
   199, 253, 37, 115, 23, 154, 213, 141, 122, 105]

/-- Equality of `Except` values is decidable when it is on both sides. -/
instance exceptDecidableEq {ε α : Type} [DecidableEq ε] [DecidableEq α] :
    DecidableEq (Except ε α) := fun a b =>
  match a, b with
  | .ok x, .ok y =>
    if h : x = y then .isTrue (by rw [h]) else .isFalse (by simp [h])
  | .ok _, .error _ => .isFalse (by simp)
  | .error _, .ok _ => .isFalse (by simp)
  | .error x, .error y =>
    if h : x = y then .isTrue (by rw [h]) else .isFalse (by simp [h])

/-! ## Concrete inputs used to exercise the definitions -/

/-- A 32-byte test authority key. -/
def keyA : Bytes := List.replicate 32 1

/-- A second 32-byte test authority key. -/
def keyB : Bytes := List.replicate 32 2

/-- A 32-byte key that is not in the test authority lists. -/
def keyC : Bytes := List.replicate 32 3

/-- A precommit signed by `k` over the zero hash at block number 0. -/
def mkPrecommit (k : Bytes) : Precommit :=
  ⟨List.replicate 32 0, 0, k, List.replicate 64 0⟩

/-- A justification whose first precommit names an unknown authority and
whose second and third name the same authority. -/
def dupAfterUnknownConfig : VerifyConfig :=
  { justification := ⟨0, [mkPrecommit keyC, mkPrecommit keyA, mkPrecommit keyA]⟩
    block_number_bytes := 4
    authorities_set_id := 0
    authorities_list := [keyA, keyB]
    randomness_seed := List.replicate 32 0 }

/-- A justification whose second precommit duplicates the first. -/
def dupCleanConfig : VerifyConfig :=
  { justification := ⟨0, [mkPrecommit keyA, mkPrecommit keyA]⟩
    block_number_bytes := 4
    authorities_set_id := 0
    authorities_list := [keyA, keyB]
    randomness_seed := List.replicate 32 0 }

/-- One precommit (naming an unknown authority) against an authority list
holding two distinct keys, one of them repeated. -/
def quorumFailConfig : VerifyConfig :=
  { justification := ⟨0, [mkPrecommit keyC]⟩
    block_number_bytes := 4
    authorities_set_id := 0
    authorities_list := [keyA, keyA, keyB]
    randomness_seed := List.replicate 32 0 }

/-- A small commit: no precommits and no auth data. -/
def emptyCommitBytes : Bytes :=
  leBytes 8 0 ++ leBytes 8 0 ++ List.replicate 32 0 ++ [0, 0, 0, 0] ++ [0, 0]

/-- The decoded form of `emptyCommitBytes`. -/
def emptyCommitValue : CommitMessageRef :=
  ⟨0, 0, ⟨List.replicate 32 0, 0, [], []⟩⟩

/-- A commit whose precommit count (1) differs from its auth-data count
(0). -/
def mismatchCommitBytes : Bytes :=
  leBytes 8 0 ++ leBytes 8 0 ++ List.replicate 32 0 ++ [0, 0, 0, 0]
    ++ [4] ++ (List.replicate 32 0 ++ [0, 0, 0, 0]) ++ [0]

/-- The decoded form of `mismatchCommitBytes`. -/
def mismatchCommitValue : CommitMessageRef :=
  ⟨0, 0, ⟨List.replicate 32 0, 0, [⟨List.replicate 32 0, 0⟩], []⟩⟩

/-- A runtime return value: `Ok(ValidTransaction)` with priority 7, no
requires, no provides, longevity 1, propagate true. -/
def emptyProvidesOutput : Bytes :=
  0 :: (leBytes 8 7 ++ [0] ++ [0] ++ leBytes 8 1 ++ [1])

/-- The decoded form of `emptyProvidesOutput`. -/
def emptyProvidesValue : ValidTransaction := ⟨7, [], [], 1, true⟩

/-- A `ValidTransaction` body whose longevity field is zero. -/
def zeroLongevityBody : Bytes :=
  leBytes 8 0 ++ [0] ++ [0] ++ leBytes 8 0 ++ [1]

/-- A driver configuration whose runtime declares only
`TaggedTransactionQueue` v1. -/
def txCfgV1 : TxConfig := ⟨some 1, [9], 4, [5], .externalSource, 0⟩

/-- A driver configuration whose runtime declares
`TaggedTransactionQueue` v2. -/
def txCfgV2 : TxConfig := ⟨some 2, [9], 4, [5], .externalSource, 0⟩

/-- A driver configuration whose runtime declares
`TaggedTransactionQueue` v3. -/
def txCfgV3 : TxConfig := ⟨some 3, [9], 4, [5], .externalSource, 0⟩

/-- A header codec stub returning block number 7. -/
def constHeaderDecode : Bytes → Nat → Option Nat := fun _ _ => some 7

/-- A header hash stub. -/
def constHeaderHash : Bytes → Bytes := fun _ => List.replicate 32 9

/-- A VM stub that completes every invocation with empty output. -/
def constVm : RunCall → VmFinish := fun _ => .ok []

/-! ## Helper lemmas -/

theorem leBytes_length (k n : Nat) : (leBytes k n).length = k := by
  induction k generalizing n with
  | zero => rfl
  | succ m ih => simp [leBytes, ih]

/-- The per-precommit loop can only stop with `NotAuthority` or
`DuplicateSignature`, never with `NotEnoughSignatures`. -/
theorem verifyLoop_ne_notEnough (bnb round setId : Nat) (auth : Finset Bytes) :
    ∀ (ps : List Precommit) (seen : Finset Bytes) (batch : List BatchItem),
      (verifyLoop bnb round setId auth ps seen batch).2 ≠
        some .NotEnoughSignatures := by
  intro ps
  induction ps with
  | nil => intro seen batch; simp [verifyLoop]
  | cons p rest ih =>
    intro seen batch
    unfold verifyLoop
    by_cases h1 : p.authority_public_key ∈ auth
    · rw [if_pos h1]
      by_cases h2 : p.authority_public_key ∈ seen
      · rw [if_pos h2]; simp
      · rw [if_neg h2]; exact ih _ _
    · rw [if_neg h1]; simp

/-- Running the per-precommit loop over a prefix of distinct, known, unseen
signers queues exactly that prefix and marks its signers seen. -/
theorem verifyLoop_clean_prefix (bnb round setId : Nat) (auth : Finset Bytes) :
    ∀ (pre rest : List Precommit) (seen : Finset Bytes) (batch : List BatchItem),
      (∀ q ∈ pre, q.authority_public_key ∈ auth) →
      (∀ q ∈ pre, q.authority_public_key ∉ seen) →
      (pre.map Precommit.authority_public_key).Nodup →
      verifyLoop bnb round setId auth (pre ++ rest) seen batch
        = verifyLoop bnb round setId auth rest
            (seen ∪ (pre.map Precommit.authority_public_key).toFinset)
            (batch ++ pre.map (batchItemOf bnb round setId)) := by
  intro pre
  induction pre with
  | nil => intro rest seen batch _ _ _; simp
  | cons p pre ih =>
    intro rest seen batch hauth hseen hnodup
    have hp : p.authority_public_key ∈ auth := hauth p (by simp)
    have hps : p.authority_public_key ∉ seen := hseen p (by simp)
    have hnd : (p.authority_public_key ∉ pre.map Precommit.authority_public_key)
        ∧ (pre.map Precommit.authority_public_key).Nodup :=
      List.nodup_cons.mp (by simpa using hnodup)
    simp only [List.cons_append, verifyLoop, if_pos hp, if_neg hps,
      List.append_eq]
    rw [ih rest (insert p.authority_public_key seen)
        (batch ++ [batchItemOf bnb round setId p])
        (fun q hq => hauth q (by simp [hq]))
        (fun q hq => by
          simp only [Finset.mem_insert, not_or]
          constructor
          · intro he
            exact hnd.1 (by rw [← he]; exact List.mem_map_of_mem _ hq)
          · exact hseen q (by simp [hq]))
        hnd.2]
    congr 1
    · ext x
      simp only [Finset.mem_union, Finset.mem_insert, List.mem_toFinset,
        List.map_cons, List.mem_cons]
      tauto
    · simp

/-! ## Claim theorems -/

/-- C1: `verify` returns `NotEnoughSignatures` if and only if the number of
precommits is strictly below `⌊2a/3⌋ + 1`, where `a` is the number of
distinct authority public keys of `authorities_list`; when the threshold is
met `verify` never returns `NotEnoughSignatures` (whatever the batch
verifier decides). -/
theorem claim1_notEnoughSignatures_iff
    (batchOk : Bytes → List BatchItem → Bool) (cfg : VerifyConfig) :
    verify batchOk cfg = .error .NotEnoughSignatures ↔
      cfg.justification.precommits.length <
        cfg.authorities_list.toFinset.card * 2 / 3 + 1 := by
  by_cases h : cfg.justification.precommits.length <
      cfg.authorities_list.toFinset.card * 2 / 3 + 1
  · simp [verify, h]
  · simp only [verify, if_neg h]
    constructor
    · intro hv
      exfalso
      rcases hL : verifyLoop cfg.block_number_bytes cfg.justification.round
          cfg.authorities_set_id cfg.authorities_list.toFinset
          cfg.justification.precommits ∅ [] with ⟨b, oe⟩
      rw [hL] at hv
      cases oe with
      | some e =>
        simp only [Except.error.injEq] at hv
        exact verifyLoop_ne_notEnough _ _ _ _ _ _ _ (by rw [hL]; simp [hv])
      | none =>
        by_cases hb : batchOk cfg.randomness_seed b <;> simp [hb] at hv
    · intro hc; exact absurd hc h

/-- C2: the signing preimage of a precommit is exactly
`1 + 32 + block_number_bytes + 8 + 8` bytes; the bytes after the tag and the
32-byte hash are the little-endian low bytes of the target number truncated
to `min 8 block_number_bytes` and zero-padded to `block_number_bytes`; for
`block_number_bytes = 4` and target number `5105457` the bytes at offsets
33..37 are `0x31 0xE7 0x4D 0x00`. -/
theorem claim2_preimage_shape (bnb round setId : Nat) (h : Bytes) (n : Nat)
    (hlen : h.length = 32) :
    (precommitMessage bnb round setId h n).length = 1 + 32 + bnb + 8 + 8
    ∧ ((precommitMessage bnb round setId h n).drop 33).take bnb
        = (leBytes 8 n).take (min 8 bnb) ++ List.replicate (bnb - 8) 0
    ∧ (bnb = 4 → n = 5105457 →
        ((precommitMessage bnb round setId h n).drop 33).take bnb
          = [0x31, 0xE7, 0x4D, 0x00]) := by
  have hdrop : ∀ t : Bytes, (1 :: (h ++ t)).drop 33 = t := by
    intro t
    have he : (1 :: (h ++ t)) = ([1] ++ h) ++ t := by simp
    rw [he, List.drop_left']
    simp [hlen]
  have key : ∀ bnb' n',
      ((precommitMessage bnb' round setId h n').drop 33).take bnb'
        = (leBytes 8 n').take (min 8 bnb') ++ List.replicate (bnb' - 8) 0 := by
    intro bnb' n'
    have hAB : ((leBytes 8 n').take (min 8 bnb')
        ++ List.replicate (bnb' - 8) 0).length = bnb' := by
      simp [List.length_take, leBytes_length]
      omega
    simp only [precommitMessage, List.append_assoc]
    rw [hdrop, ← List.append_assoc, List.take_left' hAB]
  refine ⟨?_, key bnb n, ?_⟩
  · simp [precommitMessage, List.length_take, leBytes_length, hlen]
    omega
  · intro hb hn
    subst hb hn
    rw [key 4 5105457]
    decide

/-- Witness for C2 at `block_number_bytes = 4`, round 1, set id 2, the zero
hash and target number 5105457. -/
theorem claim2_witness :
    (List.replicate 32 0 : Bytes).length = 32
    ∧ ((precommitMessage 4 1 2 (List.replicate 32 0) 5105457).length
          = 1 + 32 + 4 + 8 + 8
        ∧ ((precommitMessage 4 1 2 (List.replicate 32 0) 5105457).drop 33).take 4
            = (leBytes 8 5105457).take (min 8 4) ++ List.replicate (4 - 8) 0
        ∧ (4 = 4 → 5105457 = 5105457 →
            ((precommitMessage 4 1 2 (List.replicate 32 0) 5105457).drop 33).take 4
              = [0x31, 0xE7, 0x4D, 0x00])) :=
  ⟨by decide, claim2_preimage_shape 4 1 2 (List.replicate 32 0) 5105457 (by decide)⟩

/-- C4 counterexample: in `dupAfterUnknownConfig` the second and third
precommits carry the same authority public key, yet `verify` returns
`NotAuthority` for the unknown first signer, not `DuplicateSignature` of the
duplicated key. -/
theorem claim4_counterexample :
    ((dupAfterUnknownConfig.justification.precommits.map
        Precommit.authority_public_key)[1]?
      = (dupAfterUnknownConfig.justification.precommits.map
        Precommit.authority_public_key)[2]?)
    ∧ verify (fun _ _ => true) dupAfterUnknownConfig
        = .error (.NotAuthority keyC)
    ∧ verify (fun _ _ => true) dupAfterUnknownConfig
        ≠ .error (.DuplicateSignature keyA) := by decide

/-- C4 (amended): when the quorum check passes and every precommit before
the first duplicate names a distinct known authority, `verify` stops at the
duplicate with `DuplicateSignature` of its key, the outcome does not depend
on the batch verifier (the batch verification is never run), and the queued
batch holds exactly the precommits strictly before the duplicate. -/
theorem claim4_duplicate_stops
    (batchOk1 batchOk2 : Bytes → List BatchItem → Bool)
    (cfg : VerifyConfig) (pre : List Precommit) (p : Precommit)
    (rest : List Precommit)
    (hsplit : cfg.justification.precommits = pre ++ p :: rest)
    (hq : ¬(cfg.justification.precommits.length <
        cfg.authorities_list.toFinset.card * 2 / 3 + 1))
    (hclean : ∀ q ∈ pre, q.authority_public_key ∈ cfg.authorities_list.toFinset)
    (hnodup : (pre.map Precommit.authority_public_key).Nodup)
    (hdup : p.authority_public_key ∈ pre.map Precommit.authority_public_key) :
    verify batchOk1 cfg = .error (.DuplicateSignature p.authority_public_key)
    ∧ verify batchOk1 cfg = verify batchOk2 cfg
    ∧ (verifyLoop cfg.block_number_bytes cfg.justification.round
        cfg.authorities_set_id cfg.authorities_list.toFinset
        cfg.justification.precommits ∅ []).1
      = pre.map (batchItemOf cfg.block_number_bytes cfg.justification.round
          cfg.authorities_set_id) := by
  have hpa : p.authority_public_key ∈ cfg.authorities_list.toFinset := by
    rcases List.mem_map.mp hdup with ⟨q, hq1, hq2⟩
    rw [← hq2]; exact hclean q hq1
  have hpseen : p.authority_public_key ∈
      ((∅ : Finset Bytes) ∪ (pre.map Precommit.authority_public_key).toFinset) := by
    simp [List.mem_toFinset.mpr hdup]
  have hloop : verifyLoop cfg.block_number_bytes cfg.justification.round
      cfg.authorities_set_id cfg.authorities_list.toFinset
      cfg.justification.precommits ∅ []
      = (pre.map (batchItemOf cfg.block_number_bytes cfg.justification.round
          cfg.authorities_set_id),
         some (.DuplicateSignature p.authority_public_key)) := by
    rw [hsplit, verifyLoop_clean_prefix _ _ _ _ pre (p :: rest) ∅ []
      hclean (by simp) hnodup]
    simp only [verifyLoop, if_pos hpa, if_pos hpseen]
    simp
  refine ⟨?_, ?_, ?_⟩
  · simp only [verify, if_neg hq, hloop]
  · simp only [verify, if_neg hq, hloop]
  · rw [hloop]

/-- Witness for C4 (amended) on `dupCleanConfig`: two precommits by the same
authority out of two authorities. -/
theorem claim4_witness :
    verify (fun _ _ => true) dupCleanConfig
      = .error (.DuplicateSignature (mkPrecommit keyA).authority_public_key)
    ∧ verify (fun _ _ => true) dupCleanConfig
      = verify (fun _ _ => false) dupCleanConfig
    ∧ (verifyLoop dupCleanConfig.block_number_bytes
        dupCleanConfig.justification.round dupCleanConfig.authorities_set_id
        dupCleanConfig.authorities_list.toFinset
        dupCleanConfig.justification.precommits ∅ []).1
      = ([mkPrecommit keyA]).map (batchItemOf dupCleanConfig.block_number_bytes
          dupCleanConfig.justification.round dupCleanConfig.authorities_set_id) :=
  claim4_duplicate_stops (fun _ _ => true) (fun _ _ => false) dupCleanConfig
    [mkPrecommit keyA] (mkPrecommit keyA) [] (by decide) (by decide)
    (by decide) (by decide) (by decide)

/-- C7: `verify` is deterministic — two configurations with identical
justification, block-number width, set id, authority list and randomness
seed produce the same outcome for the same batch verifier. -/
theorem claim7_deterministic (batchOk : Bytes → List BatchItem → Bool)
    (c1 c2 : VerifyConfig)
    (h1 : c1.justification = c2.justification)
    (h2 : c1.block_number_bytes = c2.block_number_bytes)
    (h3 : c1.authorities_set_id = c2.authorities_set_id)
    (h4 : c1.authorities_list = c2.authorities_list)
    (h5 : c1.randomness_seed = c2.randomness_seed) :
    verify batchOk c1 = verify batchOk c2 := by
  have : c1 = c2 := by cases c1; cases c2; simp_all
  rw [this]

/-- Witness for C7 at `dupCleanConfig`. -/
theorem claim7_witness :
    dupCleanConfig.justification = dupCleanConfig.justification
    ∧ dupCleanConfig.block_number_bytes = dupCleanConfig.block_number_bytes
    ∧ dupCleanConfig.authorities_set_id = dupCleanConfig.authorities_set_id
    ∧ dupCleanConfig.authorities_list = dupCleanConfig.authorities_list
    ∧ dupCleanConfig.randomness_seed = dupCleanConfig.randomness_seed
    ∧ verify (fun _ _ => true) dupCleanConfig
        = verify (fun _ _ => true) dupCleanConfig :=
  ⟨rfl, rfl, rfl, rfl, rfl,
    claim7_deterministic (fun _ _ => true) dupCleanConfig dupCleanConfig
      rfl rfl rfl rfl rfl⟩

/-- C10: the quorum check compares the raw precommit count with the
threshold over the distinct keys of `authorities_list` before any
per-precommit inspection: below the threshold `verify` returns
`NotEnoughSignatures` whatever the precommits contain, and any authority
list with the same set of distinct keys (repetitions dropped) yields the
same verification outcome. -/
theorem claim10_quorum_precedence
    (batchOk : Bytes → List BatchItem → Bool) :
    (∀ cfg : VerifyConfig,
      cfg.justification.precommits.length <
          cfg.authorities_list.toFinset.card * 2 / 3 + 1 →
        verify batchOk cfg = .error .NotEnoughSignatures)
    ∧ (∀ (cfg : VerifyConfig) (l : List Bytes),
        cfg.authorities_list.toFinset = l.toFinset →
        verify batchOk cfg
          = verify batchOk { cfg with authorities_list := l }) := by
  constructor
  · intro cfg h; simp [verify, h]
  · intro cfg l h
    simp only [verify, h]

/-- Witness for C10 on `quorumFailConfig`: one precommit by an unknown
authority against the duplicated list `[keyA, keyA, keyB]`, whose distinct
count 2 demands 2 signatures. -/
theorem claim10_witness :
    (quorumFailConfig.justification.precommits.length <
        quorumFailConfig.authorities_list.toFinset.card * 2 / 3 + 1
      ∧ verify (fun _ _ => true) quorumFailConfig
          = .error .NotEnoughSignatures)
    ∧ (quorumFailConfig.authorities_list.toFinset
          = ([keyA, keyB] : List Bytes).toFinset
      ∧ verify (fun _ _ => true) quorumFailConfig
          = verify (fun _ _ => true)
              { quorumFailConfig with authorities_list := [keyA, keyB] }) :=
  ⟨⟨by decide,
    (claim10_quorum_precedence (fun _ _ => true)).1 quorumFailConfig (by decide)⟩,
   ⟨by decide,
    (claim10_quorum_precedence (fun _ _ => true)).2 quorumFailConfig [keyA, keyB]
      (by decide)⟩⟩

/-- A successfully parsed `ValidTransaction` has a nonzero longevity: the
decoder rejects a zero longevity field. -/
theorem valid_transaction_longevity_pos (bs : Bytes) (v : ValidTransaction)
    (r : Bytes) (h : valid_transaction bs = some (v, r)) : 0 < v.longevity := by
  unfold valid_transaction at h
  repeat' split at h
  all_goals simp_all
  obtain ⟨h1, -⟩ := h
  subst h1
  simp only [ValidTransaction.longevity]
  omega

/-- A `ValidTransaction` surfaced by the full return-value decoder has a
nonzero longevity. -/
theorem decode_return_longevity_pos (bs : Bytes) (v : ValidTransaction)
    (h : decode_validate_transaction_return_value bs = .ok (.ok v)) :
    0 < v.longevity := by
  unfold decode_validate_transaction_return_value at h
  split at h
  case _ data r heq =>
    simp only [Except.ok.injEq] at h
    subst h
    unfold transaction_validity at heq
    repeat' split at heq
    any_goals exact Option.noConfusion heq
    any_goals simp at heq
    rename_i hvt
    obtain ⟨hv, hr⟩ := heq
    subst hv
    subst hr
    exact valid_transaction_longevity_pos _ _ _ hvt
  case _ => simp at h

/-- A `ValidTransaction` body whose longevity bytes decode to zero makes the
body parser, the full decoder and the stage-2 driver fail. -/
theorem valid_transaction_zero_longevity_fails
    (bs r1 r2 r3 r4 : Bytes) (prio : Nat) (req prov : List Bytes)
    (h1 : leU64 bs = some (prio, r1)) (h2 : tags r1 = some (req, r2))
    (h3 : tags r2 = some (prov, r3)) (h4 : leU64 r3 = some (0, r4)) :
    valid_transaction bs = none
    ∧ decode_validate_transaction_return_value (0 :: bs) = .error ()
    ∧ fromStep2 (.ok (0 :: bs)) = .error .OutputDecodeError := by
  have hv : valid_transaction bs = none := by
    simp [valid_transaction, h1, h2, h3, h4]
  have hd : decode_validate_transaction_return_value (0 :: bs) = .error () := by
    simp [decode_validate_transaction_return_value, transaction_validity, hv]
  exact ⟨hv, hd, by simp [fromStep2, hd]⟩

/-- C3: `validate_transaction` dispatches on the declared
`TaggedTransactionQueue` version: any version other than 2 or 3 yields
`UnknownApiVersion` with no runtime invocation; version 2 first invokes
`Core_initialize_block` with the partially-initialized header
`{ parent_hash = hash(header), number = decoded number + 1, zero roots,
empty digest }`; version 3 issues exactly one invocation, of the validation
entry point, with the v3 parameters. -/
theorem claim3_api_version_dispatch :
    (∀ (dec : Bytes → Nat → Option Nat) (hsh : Bytes → Bytes)
        (vm : RunCall → VmFinish) (cfg : TxConfig),
        cfg.apiVersion ≠ some 2 → cfg.apiVersion ≠ some 3 →
        validate_transaction dec hsh vm cfg = (.error .UnknownApiVersion, []))
    ∧ (∀ (dec : Bytes → Nat → Option Nat) (hsh : Bytes → Bytes)
        (vm : RunCall → VmFinish) (cfg : TxConfig) (n : Nat),
        cfg.apiVersion = some 2 →
        dec cfg.scale_encoded_header cfg.block_number_bytes = some n →
        (validate_transaction dec hsh vm cfg).2.head? = some
          ⟨"Core_initialize_block", .initHeader
            { parent_hash := hsh cfg.scale_encoded_header
              number := n + 1
              extrinsics_root := List.replicate 32 0
              state_root := List.replicate 32 0
              digest := [] }⟩)
    ∧ (∀ (dec : Bytes → Nat → Option Nat) (hsh : Bytes → Bytes)
        (vm : RunCall → VmFinish) (cfg : TxConfig) (n : Nat),
        cfg.apiVersion = some 2 →
        dec cfg.scale_encoded_header cfg.block_number_bytes = some n →
        vm ⟨"Core_initialize_block", .initHeader
            { parent_hash := hsh cfg.scale_encoded_header
              number := n + 1
              extrinsics_root := List.replicate 32 0
              state_root := List.replicate 32 0
              digest := [] }⟩ = .ok [] →
        (validate_transaction dec hsh vm cfg).2
          = [⟨"Core_initialize_block", .initHeader
              { parent_hash := hsh cfg.scale_encoded_header
                number := n + 1
                extrinsics_root := List.replicate 32 0
                state_root := List.replicate 32 0
                digest := [] }⟩,
             ⟨VALIDATION_FUNCTION_NAME, .validateV2 cfg.source
               cfg.scale_encoded_transaction⟩])
    ∧ (∀ (dec : Bytes → Nat → Option Nat) (hsh : Bytes → Bytes)
        (vm : RunCall → VmFinish) (cfg : TxConfig),
        cfg.apiVersion = some 3 →
        (validate_transaction dec hsh vm cfg).2
          = [⟨VALIDATION_FUNCTION_NAME, .validateV3 cfg.source
              cfg.scale_encoded_transaction (hsh cfg.scale_encoded_header)⟩]) := by
  refine ⟨?_, ?_, ?_, ?_⟩
  · intro dec hsh vm cfg h2 h3
    unfold validate_transaction
    split <;> first | rfl | simp_all
  · intro dec hsh vm cfg n hv hdec
    simp [validate_transaction, hv, hdec]
  · intro dec hsh vm cfg n hv hdec hvm
    simp only [validate_transaction, hv, hdec, fromStep1, hvm]
    simp [VALIDATION_FUNCTION_NAME]
  · intro dec hsh vm cfg hv
    simp [validate_transaction, hv]

/-- Witness for C3 on the three stub configurations. -/
theorem claim3_witness :
    (txCfgV1.apiVersion ≠ some 2 ∧ txCfgV1.apiVersion ≠ some 3
      ∧ validate_transaction constHeaderDecode constHeaderHash constVm txCfgV1
          = (.error .UnknownApiVersion, []))
    ∧ (txCfgV2.apiVersion = some 2
      ∧ constHeaderDecode txCfgV2.scale_encoded_header txCfgV2.block_number_bytes
          = some 7
      ∧ (validate_transaction constHeaderDecode constHeaderHash constVm
            txCfgV2).2.head?
          = some ⟨"Core_initialize_block", .initHeader
              { parent_hash := constHeaderHash txCfgV2.scale_encoded_header
                number := 7 + 1
                extrinsics_root := List.replicate 32 0
                state_root := List.replicate 32 0
                digest := [] }⟩)
    ∧ (constVm ⟨"Core_initialize_block", .initHeader
          { parent_hash := constHeaderHash txCfgV2.scale_encoded_header
            number := 7 + 1
            extrinsics_root := List.replicate 32 0
            state_root := List.replicate 32 0
            digest := [] }⟩ = .ok []
      ∧ (validate_transaction constHeaderDecode constHeaderHash constVm
            txCfgV2).2
          = [⟨"Core_initialize_block", .initHeader
              { parent_hash := constHeaderHash txCfgV2.scale_encoded_header
                number := 7 + 1
                extrinsics_root := List.replicate 32 0
                state_root := List.replicate 32 0
                digest := [] }⟩,
             ⟨VALIDATION_FUNCTION_NAME, .validateV2 txCfgV2.source
               txCfgV2.scale_encoded_transaction⟩])
    ∧ (txCfgV3.apiVersion = some 3
      ∧ (validate_transaction constHeaderDecode constHeaderHash constVm
            txCfgV3).2
          = [⟨VALIDATION_FUNCTION_NAME, .validateV3 txCfgV3.source
              txCfgV3.scale_encoded_transaction
              (constHeaderHash txCfgV3.scale_encoded_header)⟩]) :=
  ⟨⟨by decide, by decide,
    claim3_api_version_dispatch.1 constHeaderDecode constHeaderHash constVm
      txCfgV1 (by decide) (by decide)⟩,
   ⟨by decide, by decide,
    claim3_api_version_dispatch.2.1 constHeaderDecode constHeaderHash constVm
      txCfgV2 7 (by decide) (by decide)⟩,
   ⟨by decide,
    claim3_api_version_dispatch.2.2.1 constHeaderDecode constHeaderHash constVm
      txCfgV2 7 (by decide) (by decide) (by decide)⟩,
   ⟨by decide,
    claim3_api_version_dispatch.2.2.2 constHeaderDecode constHeaderHash constVm
      txCfgV3 (by decide)⟩⟩

/-- C5: in stage 2, a runtime output that decodes to a `ValidTransaction`
with an empty `provides` list makes the driver finish with
`EmptyProvidedTags`; a non-empty list is returned as `Finished(Ok(...))`. -/
theorem claim5_empty_provides (output : Bytes) (v : ValidTransaction)
    (h : decode_validate_transaction_return_value output = .ok (.ok v)) :
    (v.provides = [] → fromStep2 (.ok output) = .error .EmptyProvidedTags)
    ∧ (v.provides ≠ [] → fromStep2 (.ok output) = .ok (.ok v)) := by
  constructor <;> intro hp <;> simp [fromStep2, h, hp]

/-- Witness for C5 on `emptyProvidesOutput`. -/
theorem claim5_witness :
    decode_validate_transaction_return_value emptyProvidesOutput
        = .ok (.ok emptyProvidesValue)
    ∧ (emptyProvidesValue.provides = [] →
        fromStep2 (.ok emptyProvidesOutput) = .error .EmptyProvidedTags)
    ∧ (emptyProvidesValue.provides ≠ [] →
        fromStep2 (.ok emptyProvidesOutput) = .ok (.ok emptyProvidesValue)) :=
  ⟨by decide, claim5_empty_provides emptyProvidesOutput emptyProvidesValue
    (by decide)⟩

/-- C6: the total decoder succeeds exactly when the commit parser consumes
the whole input, while the partial decoder returns the same value with the
remainder; the precommit and auth-data counts come from independent compact
prefixes with no cross-check, and empty lists decode fine. -/
theorem claim6_consumption_and_counts :
    (∀ (bytes : Bytes) (bnb : Nat) (c : CommitMessageRef) (r : Bytes),
        commit_message bnb bytes = some (c, r) →
        decode_partial_grandpa_commit bytes bnb = .ok (c, r)
        ∧ decode_grandpa_commit bytes bnb
            = (if r = [] then .ok c else .error ()))
    ∧ (∀ (bytes : Bytes) (bnb : Nat),
        commit_message bnb bytes = none →
        decode_grandpa_commit bytes bnb = .error ()
        ∧ decode_partial_grandpa_commit bytes bnb = .error ())
    ∧ decode_grandpa_commit emptyCommitBytes 4 = .ok emptyCommitValue
    ∧ decode_grandpa_commit mismatchCommitBytes 4 = .ok mismatchCommitValue
    ∧ mismatchCommitValue.message.precommits.length = 1
    ∧ mismatchCommitValue.message.auth_data.length = 0 := by
  refine ⟨?_, ?_, by decide, by decide, by decide, by decide⟩
  · intro bytes bnb c r h
    constructor
    · simp [decode_partial_grandpa_commit, h]
    · cases r with
      | nil => simp [decode_grandpa_commit, h]
      | cons a as => simp [decode_grandpa_commit, h]
  · intro bytes bnb h
    exact ⟨by simp [decode_grandpa_commit, h],
      by simp [decode_partial_grandpa_commit, h]⟩

/-- Witness for C6: the empty commit followed by a trailing byte is accepted
by the partial decoder with remainder `[7]` and rejected by the total
decoder. -/
theorem claim6_witness :
    commit_message 4 (emptyCommitBytes ++ [7]) = some (emptyCommitValue, [7])
    ∧ (decode_partial_grandpa_commit (emptyCommitBytes ++ [7]) 4
          = .ok (emptyCommitValue, [7])
      ∧ decode_grandpa_commit (emptyCommitBytes ++ [7]) 4
          = (if ([7] : Bytes) = [] then .ok emptyCommitValue else .error ())) :=
  ⟨by decide, claim6_consumption_and_counts.1 (emptyCommitBytes ++ [7]) 4
    emptyCommitValue [7] (by decide)⟩

/-- C8: decoding fails whenever the longevity field of a `ValidTransaction`
body is zero (surfaced by the stage-2 driver as `OutputDecodeError`), and
every successfully decoded `ValidTransaction` has a strictly positive
longevity. -/
theorem claim8_longevity :
    (∀ (bs : Bytes) (v : ValidTransaction) (r : Bytes),
        valid_transaction bs = some (v, r) → 0 < v.longevity)
    ∧ (∀ (bs : Bytes) (v : ValidTransaction),
        decode_validate_transaction_return_value bs = .ok (.ok v) →
        0 < v.longevity)
    ∧ (∀ (bs r1 r2 r3 r4 : Bytes) (prio : Nat) (req prov : List Bytes),
        leU64 bs = some (prio, r1) → tags r1 = some (req, r2) →
        tags r2 = some (prov, r3) → leU64 r3 = some (0, r4) →
        valid_transaction bs = none
        ∧ decode_validate_transaction_return_value (0 :: bs) = .error ()
        ∧ fromStep2 (.ok (0 :: bs)) = .error .OutputDecodeError) :=
  ⟨valid_transaction_longevity_pos, decode_return_longevity_pos,
   valid_transaction_zero_longevity_fails⟩

/-- Witness for C8 on `zeroLongevityBody`. -/
theorem claim8_witness :
    leU64 zeroLongevityBody = some (0, [0, 0, 0, 0, 0, 0, 0, 0, 0, 0, 1])
    ∧ tags [0, 0, 0, 0, 0, 0, 0, 0, 0, 0, 1]
        = some ([], [0, 0, 0, 0, 0, 0, 0, 0, 0, 1])
    ∧ tags [0, 0, 0, 0, 0, 0, 0, 0, 0, 1]
        = some ([], [0, 0, 0, 0, 0, 0, 0, 0, 1])
    ∧ leU64 [0, 0, 0, 0, 0, 0, 0, 0, 1] = some (0, [1])
    ∧ (valid_transaction zeroLongevityBody = none
      ∧ decode_validate_transaction_return_value (0 :: zeroLongevityBody)
          = .error ()
      ∧ fromStep2 (.ok (0 :: zeroLongevityBody))
          = .error .OutputDecodeError) :=
  ⟨by decide, by decide, by decide, by decide,
   claim8_longevity.2.2 zeroLongevityBody [0, 0, 0, 0, 0, 0, 0, 0, 0, 0, 1]
     [0, 0, 0, 0, 0, 0, 0, 0, 0, 1] [0, 0, 0, 0, 0, 0, 0, 0, 1] [1] 0 [] []
     (by decide) (by decide) (by decide) (by decide)⟩

/-- C9 counterexample: the commit fixture of the source test starts with the
bytes `0x55 0x0E 00 00 00 00 00 00 0xA2 0x0D 00 00` and is 978 bytes long,
not 1448 as the claim asserts. -/
theorem claim9_counterexample :
    commitFixture.take 12 = [0x55, 0x0E, 0, 0, 0, 0, 0, 0, 0xA2, 0x0D, 0, 0]
    ∧ commitFixture.length = 978
    ∧ commitFixture.length ≠ 1448 := ⟨by decide, by decide, by decide⟩

/-- C9 (amended): the 978-byte commit fixture decodes with
`block_number_bytes = 4` to round number 3669, set id 3490, target number
5105457, 7 precommits and 7 auth-data entries. -/
theorem claim9_fixture_decodes :
    commitFixture.length = 978
    ∧ (decode_grandpa_commit commitFixture 4).toOption.map
        (fun c => (c.round_number, c.set_id, c.message.target_number,
          c.message.precommits.length, c.message.auth_data.length))
      = some (3669, 3490, 5105457, 7, 7) := ⟨by decide, by rfl⟩

end Smoldot
